import Mathlib

/-!
Shallow embedding of `src/ios/Scripts/generate_bobby_history.py` (the
periodized workout-history generator) and proofs of the frozen claims
about it.

Conventions of the embedding:
* Python `datetime.date` values are embedded as `(year, month, day)`
  triples of naturals; `date.toordinal()` is the standard proleptic
  Gregorian ordinal (0001-01-01 = 1) and `date.weekday()` is Monday = 0.
* Python floats that hold exact decimal configuration values (intensities,
  weights) are embedded as rationals; `round(x, 1)` is embedded as
  round-half-to-even at one decimal digit, which is Python's rounding mode.
* Python's process-global `random` generator, which the script reseeds
  before every draw, is embedded as a function `rng : Int → PyGen` from
  the seed to the values the subsequent draws produce.  Python's salted
  string `hash` is embedded as an unconstrained parameter
  `pyhash : String → Int`; nothing in the language guarantees two runs of
  the interpreter agree on it.
-/

namespace BobbyHistory

/-- Result category drawn by `random.choices` in `generate_actual_performance`. -/
inductive Outcome
  | hit
  | exceeded
  | struggled
  | weight_drop
  | skipped
deriving DecidableEq

/-- Status strings used for workouts, exercise instances and sets. -/
inductive Status
  | completed
  | skipped
  | scheduled
deriving DecidableEq

/-- Workout type: MWF strength, T/Th cardio. -/
inductive WType
  | strength
  | cardio
deriving DecidableEq

/-- The values produced by the reseeded global `random` generator for one
seed: the `random.choices` outcome draw, the `random.randint` draw as a
function of its bounds, and the `random.random()` float draw. -/
structure PyGen where
  choicesOutcome : Outcome
  randint : Int → Int → Int
  randFloat : ℚ

/-- One periodization phase from the `PHASES` table. -/
structure Phase where
  name : String
  weekStart : Int
  weekEnd : Int
  intensityStart : ℚ
  intensityEnd : ℚ
  protocol : String
  focus : String
  rationale : String
deriving DecidableEq

/-- `PHASES[0]`: Accumulation, weeks 1-4, 60% → 70%. -/
def phaseAccumulation : Phase :=
  { name := "Accumulation", weekStart := 1, weekEnd := 4
    intensityStart := 60/100, intensityEnd := 70/100
    protocol := "strength_3x10_moderate", focus := "foundation"
    rationale := "Build work capacity with moderate intensity, higher volume" }

/-- `PHASES[1]`: Intensification, weeks 5-8, 70% → 80%. -/
def phaseIntensification : Phase :=
  { name := "Intensification", weekStart := 5, weekEnd := 8
    intensityStart := 70/100, intensityEnd := 80/100
    protocol := "strength_5x5_straight", focus := "development"
    rationale := "Increase intensity, reduce volume for strength adaptation" }

/-- `PHASES[2]`: Realization, weeks 9-12, 80% → 90%. -/
def phaseRealization : Phase :=
  { name := "Realization", weekStart := 9, weekEnd := 12
    intensityStart := 80/100, intensityEnd := 90/100
    protocol := "strength_3x5_moderate", focus := "peak"
    rationale := "Peak strength with high intensity, low volume" }

/-- The `PHASES` table of the script. -/
def PHASES : List Phase := [phaseAccumulation, phaseIntensification, phaseRealization]

/-- `get_phase_for_week`: scan `PHASES` (with index) for the first phase whose
`[week_start, week_end]` range contains the week; default to `(2, PHASES[2])`
for weeks beyond 12. -/
def get_phase_for_week (week_num : Int) : Nat × Phase :=
  match PHASES.enum.find? (fun ip => decide (ip.2.weekStart ≤ week_num ∧ week_num ≤ ip.2.weekEnd)) with
  | some ip => ip
  | none => (2, phaseRealization)

/-- `get_intensity_for_week`: linear interpolation of intensity from the
phase's start to its end across the phase's week span, with `progress = 0`
when the phase has a single week. -/
def get_intensity_for_week (week_num : Int) (phase : Phase) : ℚ :=
  let week_start := phase.weekStart
  let week_end := phase.weekEnd
  let intensity_start := phase.intensityStart
  let intensity_end := phase.intensityEnd
  let phase_weeks : Int := week_end - week_start + 1
  let week_in_phase : Int := week_num - week_start
  let progress : ℚ :=
    if phase_weeks > 1 then (week_in_phase : ℚ) / ((max 1 (phase_weeks - 1) : Int) : ℚ) else 0
  intensity_start + (intensity_end - intensity_start) * progress

/-- The intensity the generator uses for a given week: resolve the phase by
week number, then interpolate within it. -/
def intensityForWeek (week_num : Int) : ℚ :=
  get_intensity_for_week week_num (get_phase_for_week week_num).2

/-- A Python `datetime.date`, embedded as a `(year, month, day)` triple. -/
abbrev Date3 := Nat × Nat × Nat

/-- Gregorian leap-year test, as used by Python's `datetime`. -/
def isLeapYear (y : Nat) : Bool := (y % 4 == 0 && y % 100 != 0) || y % 400 == 0

/-- Days in a month of the proleptic Gregorian calendar. -/
def daysInMonth (y m : Nat) : Nat :=
  if m = 2 then (if isLeapYear y then 29 else 28)
  else if m = 4 ∨ m = 6 ∨ m = 9 ∨ m = 11 then 30 else 31

/-- Days in year `y` before month `m` begins. -/
def daysBeforeMonth (y m : Nat) : Nat :=
  (List.range (m - 1)).foldl (fun acc k => acc + daysInMonth y (k + 1)) 0

/-- Python's `date.toordinal()`: day 1 is 0001-01-01. -/
def toOrdinal : Date3 → Nat
  | (y, m, d) =>
    365 * (y - 1) + (y - 1) / 4 - (y - 1) / 100 + (y - 1) / 400 + daysBeforeMonth y m + d

/-- Python's `date.weekday()`: Monday = 0 ... Sunday = 6. -/
def weekdayOf (d : Date3) : Nat := (toOrdinal d + 6) % 7

/-- The calendar day after `d` (`d + timedelta(days=1)`). -/
def nextDay : Date3 → Date3
  | (y, m, d) =>
    if d < daysInMonth y m then (y, m, d + 1)
    else if m < 12 then (y, m + 1, 1) else (y + 1, 1, 1)

/-- The `while current_date.weekday() != 0: current_date += 1 day` loop of
`generate_workouts_with_data`; seven days of fuel always suffice. -/
def advanceToMonday : Nat → Date3 → Date3
  | 0, d => d
  | fuel + 1, d => if weekdayOf d = 0 then d else advanceToMonday fuel (nextDay d)

/-- Zero-padded two-digit decimal rendering. -/
def pad2 (n : Nat) : String := if n < 10 then "0" ++ toString n else toString n

/-- Zero-padded four-digit decimal rendering. -/
def pad4 (n : Nat) : String :=
  if n < 10 then "000" ++ toString n
  else if n < 100 then "00" ++ toString n
  else if n < 1000 then "0" ++ toString n
  else toString n

/-- Python's `str(date)` / `date.isoformat()`: `YYYY-MM-DD`. -/
def isoDate : Date3 → String
  | (y, m, d) => pad4 y ++ "-" ++ pad2 m ++ "-" ++ pad2 d

/-- `date.strftime("%Y%m%d")`. -/
def dateStr8 : Date3 → String
  | (y, m, d) => pad4 y ++ pad2 m ++ pad2 d

/-- Round a rational to an integer, halves to even — Python's `round` mode. -/
def roundHalfEven (q : ℚ) : Int :=
  let f := ⌊q⌋
  let r := q - (f : ℚ)
  if r < 1/2 then f else if 1/2 < r then f + 1 else if Even f then f else f + 1

/-- Python's `round(x, 1)`: round to one decimal digit, halves to even. -/
def pyRound1 (q : ℚ) : ℚ := (roundHalfEven (10 * q) : ℚ) / 10

/-- The string `f"{workout_date}_{exercise_num}"` whose Python `hash` seeds
the outcome draw. -/
def seedString (workout_date : String) (exercise_num : Nat) : String :=
  workout_date ++ "_" ++ toString exercise_num

/-- `seed_val = hash(f"{workout_date}_{exercise_num}")`: the seed is the
process's string-hash value of the date/ordinal key.  `pyhash` is a
parameter because CPython salts string hashing per process. -/
def seed_val (pyhash : String → Int) (workout_date : String) (exercise_num : Nat) : Int :=
  pyhash (seedString workout_date exercise_num)

/-- The body of `generate_actual_performance` after reseeding: the drawn
outcome decides the returned `(actual_weight, actual_reps, status)`. -/
def generate_actual_performance (gen : PyGen) (target_weight : ℚ) (target_reps : Int) :
    Option ℚ × Option Int × Status :=
  match gen.choicesOutcome with
  | Outcome.hit => (some target_weight, some target_reps, Status.completed)
  | Outcome.exceeded =>
      let extra_reps := gen.randint 1 3
      (some target_weight, some (target_reps + extra_reps), Status.completed)
  | Outcome.struggled =>
      let max_fewer := max 1 (min 2 (target_reps - 1))
      let fewer_reps := if max_fewer > 0 then gen.randint 1 max_fewer else 1
      (some target_weight, some (max 1 (target_reps - fewer_reps)), Status.completed)
  | Outcome.weight_drop =>
      (some (pyRound1 (target_weight * (9/10))), some target_reps, Status.completed)
  | Outcome.skipped => (none, none, Status.skipped)

/-- `generate_actual_performance` including its seeding step: the generator
state is reseeded with `seed_val` before the draws. -/
def generate_actual_performance_seeded (pyhash : String → Int) (rng : Int → PyGen)
    (target_weight : ℚ) (target_reps : Int) (workout_date : Date3) (exercise_num : Nat) :
    Option ℚ × Option Int × Status :=
  generate_actual_performance (rng (seed_val pyhash (isoDate workout_date) exercise_num))
    target_weight target_reps

/-- `should_skip_workout`: reseed from `hash(str(workout_date))`, roll
`random.random() < 0.10`. -/
def should_skip_workout (pyhash : String → Int) (rng : Int → PyGen) (workout_date : Date3) :
    Bool :=
  (rng (pyhash (isoDate workout_date))).randFloat < 10/100

/-- `should_skip_exercise`: reseed from `hash(f"{date}_ex_{num}")`, roll
`random.random() < 0.05`. -/
def should_skip_exercise (pyhash : String → Int) (rng : Int → PyGen) (workout_date : Date3)
    (exercise_num : Nat) : Bool :=
  (rng (pyhash (isoDate workout_date ++ "_ex_" ++ toString exercise_num))).randFloat < 5/100

/-- `random.randint(a, b)` returns a value in `[a, b]`; this is the library
contract assumed of the generator's draw. -/
def RandintSpec (gen : PyGen) : Prop :=
  ∀ a b : Int, a ≤ b → a ≤ gen.randint a b ∧ gen.randint a b ≤ b

/-- The outcome shapes asserted by claim C6, following the claim's words;
in particular the `struggled` deduction is drawn from `1..min(2, target-1)`. -/
def PerfSpecClaim (gen : PyGen) (target_weight : ℚ) (target_reps : Int) : Prop :=
  match gen.choicesOutcome with
  | Outcome.hit =>
      generate_actual_performance gen target_weight target_reps =
        (some target_weight, some target_reps, Status.completed)
  | Outcome.exceeded => ∃ k : Int, 1 ≤ k ∧ k ≤ 3 ∧
      generate_actual_performance gen target_weight target_reps =
        (some target_weight, some (target_reps + k), Status.completed)
  | Outcome.struggled => ∃ k : Int, 1 ≤ k ∧ k ≤ min 2 (target_reps - 1) ∧
      generate_actual_performance gen target_weight target_reps =
        (some target_weight, some (max 1 (target_reps - k)), Status.completed)
  | Outcome.weight_drop =>
      generate_actual_performance gen target_weight target_reps =
        (some (pyRound1 (target_weight * (9/10))), some target_reps, Status.completed)
  | Outcome.skipped =>
      generate_actual_performance gen target_weight target_reps =
        (none, none, Status.skipped)

/-- The outcome shapes with the `struggled` range amended to
`1..max(1, min(2, target-1))`, which is what the code draws from. -/
def PerfSpecAmended (gen : PyGen) (target_weight : ℚ) (target_reps : Int) : Prop :=
  match gen.choicesOutcome with
  | Outcome.hit =>
      generate_actual_performance gen target_weight target_reps =
        (some target_weight, some target_reps, Status.completed)
  | Outcome.exceeded => ∃ k : Int, 1 ≤ k ∧ k ≤ 3 ∧
      generate_actual_performance gen target_weight target_reps =
        (some target_weight, some (target_reps + k), Status.completed)
  | Outcome.struggled => ∃ k : Int, 1 ≤ k ∧ k ≤ max 1 (min 2 (target_reps - 1)) ∧
      generate_actual_performance gen target_weight target_reps =
        (some target_weight, some (max 1 (target_reps - k)), Status.completed)
  | Outcome.weight_drop =>
      generate_actual_performance gen target_weight target_reps =
        (some (pyRound1 (target_weight * (9/10))), some target_reps, Status.completed)
  | Outcome.skipped =>
      generate_actual_performance gen target_weight target_reps =
        (none, none, Status.skipped)

/-- A generator whose outcome draw is `struggled` and whose `randint` always
returns the lower bound. -/
def genStruggleLow : PyGen :=
  { choicesOutcome := Outcome.struggled, randint := fun a _ => a, randFloat := 0 }

/-- A generator whose outcome draw is `hit`. -/
def genHitLow : PyGen :=
  { choicesOutcome := Outcome.hit, randint := fun a _ => a, randFloat := 0 }

/-- A generator whose outcome draw is `skipped`. -/
def genSkipLow : PyGen :=
  { choicesOutcome := Outcome.skipped, randint := fun a _ => a, randFloat := 0 }

/-- One entry of the `QUARTERS` table; the date strings of the script are
embedded already parsed (`datetime.strptime(..., "%Y-%m-%d").date()`). -/
structure Quarter where
  name : String
  qstart : Date3
  qend : Date3
  bodyweight : Int
deriving DecidableEq

/-- The `QUARTERS` table: five contiguous calendar quarters. -/
def QUARTERS : List Quarter :=
  [ { name := "Q4 2024", qstart := (2024, 10, 1), qend := (2024, 12, 31), bodyweight := 144 },
    { name := "Q1 2025", qstart := (2025, 1, 1), qend := (2025, 3, 31), bodyweight := 148 },
    { name := "Q2 2025", qstart := (2025, 4, 1), qend := (2025, 6, 30), bodyweight := 152 },
    { name := "Q3 2025", qstart := (2025, 7, 1), qend := (2025, 9, 30), bodyweight := 149 },
    { name := "Q4 2025", qstart := (2025, 10, 1), qend := (2025, 12, 31), bodyweight := 150 } ]

/-- The `ONE_RM_PROGRESSION` dict: per-exercise 1RM value at the start of
each quarter, in insertion order. -/
def ONE_RM_PROGRESSION : List (String × List Int) :=
  [ ("barbell_back_squat", [170, 180, 215, 220, 195]),
    ("conventional_deadlift", [130, 155, 200, 240, 260]),
    ("barbell_bench_press", [135, 165, 185, 200, 195]),
    ("overhead_press", [60, 80, 100, 105, 100]),
    ("pull_up", [144, 168, 192, 214, 215]),
    ("pendlay_row", [75, 105, 135, 150, 125]),
    ("dumbbell_bench_press", [50, 60, 70, 75, 70]),
    ("barbell_row", [95, 115, 140, 155, 130]),
    ("lat_pulldown", [100, 120, 140, 150, 145]),
    ("dumbbell_lateral_raise", [15, 20, 25, 27, 25]),
    ("tricep_extension", [40, 50, 60, 65, 60]),
    ("barbell_curl", [50, 60, 75, 80, 75]) ]

/-- The `for i, q in enumerate(QUARTERS)` loop of `get_1rm_for_date`:
return `values[i] if i < len(values) else values[-1]` for the first quarter
containing the date, else fall through to `values[-1]`. -/
def rmQuarterScan (values : List Int) (workout_date : Nat) : List (Nat × Quarter) → Int
  | [] => values.getLast!
  | (i, q) :: rest =>
    if toOrdinal q.qstart ≤ workout_date ∧ workout_date ≤ toOrdinal q.qend then
      (if i < values.length then values.getD i 0 else values.getLast!)
    else rmQuarterScan values workout_date rest

/-- `get_1rm_for_date`: unknown exercise ids return the default 100,
otherwise scan the quarters for the one containing the date. -/
def get_1rm_for_date (exercise_id : String) (workout_date : Nat) : Int :=
  match ONE_RM_PROGRESSION.lookup exercise_id with
  | none => 100
  | some values => rmQuarterScan values workout_date QUARTERS.enum

/-- The strength target-weight computation of the generator:
`round(one_rm * phase_intensity, 1)` with the phase intensity of the week. -/
def strengthTargetWeight (exercise_id : String) (workout_date : Nat) (week_num : Int)
    (phase : Phase) : ℚ :=
  pyRound1 ((get_1rm_for_date exercise_id workout_date : ℚ) *
    get_intensity_for_week week_num phase)

/-- One entry of the `PROTOCOLS` table. -/
structure Protocol where
  reps : List Int
  intensity : ℚ
  rest : Int
deriving DecidableEq

/-- The `PROTOCOLS` table. -/
def PROTOCOLS : List (String × Protocol) :=
  [ ("strength_3x5_moderate", { reps := [5, 5, 5], intensity := 75/100, rest := 180 }),
    ("strength_5x5_straight", { reps := [5, 5, 5, 5, 5], intensity := 70/100, rest := 180 }),
    ("strength_3x8_moderate", { reps := [8, 8, 8], intensity := 65/100, rest := 90 }),
    ("strength_3x10_moderate", { reps := [10, 10, 10], intensity := 60/100, rest := 90 }),
    ("strength_3x12_light", { reps := [12, 12, 12], intensity := 55/100, rest := 60 }) ]

/-- The `FULL_BODY_EXERCISES` rotation table: one option group per slot. -/
def FULL_BODY_EXERCISES : List (List String) :=
  [ ["barbell_back_squat", "conventional_deadlift"],
    ["barbell_bench_press", "overhead_press"],
    ["pull_up", "barbell_row", "lat_pulldown"],
    ["dumbbell_lateral_raise", "tricep_extension"],
    ["barbell_curl", "pendlay_row"] ]

/-- `select_exercises_for_workout`: cardio is a single fixed exercise;
strength picks `group[(day_num + i) % len(group)]` per slot from the
rotation table, with `day_num = date.toordinal()`. -/
def select_exercises_for_workout (workout_date : Date3) (workout_type : WType) : List String :=
  match workout_type with
  | WType.cardio => ["treadmill_run"]
  | WType.strength =>
    let day_num := toOrdinal workout_date
    FULL_BODY_EXERCISES.enum.map (fun ig => ig.2.getD ((day_num + ig.1) % ig.2.length) "")

/-- A generated workout record (the fields of `workout_data`). -/
structure Workout where
  id : String
  programId : String
  name : String
  scheduledDate : String
  wtype : WType
  splitDay : String
  status : Status
  completedDate : Option String
  exerciseIds : List String
  protocolVariantIds : List (String × String)
deriving DecidableEq

/-- A generated exercise-instance record. -/
structure ExerciseInstance where
  id : String
  exerciseId : String
  workoutId : String
  protocolVariantId : String
  setIds : List String
  status : Status
  orderIndex : Nat
deriving DecidableEq

/-- A generated set record. -/
structure SetRec where
  id : String
  exerciseInstanceId : String
  setNumber : Nat
  targetWeight : Option ℚ
  targetReps : Int
  actualWeight : Option ℚ
  actualReps : Option Int
  completion : Status
  recordedDate : Option String
deriving DecidableEq

/-- The `total_stats` counters of `generate_workouts_with_data`. -/
structure Stats where
  workouts_completed : Nat
  workouts_skipped : Nat
  exercises_completed : Nat
  exercises_skipped : Nat
  sets_completed : Nat
  sets_skipped : Nat
deriving DecidableEq

/-- All-zero counters. -/
def Stats.zero : Stats := ⟨0, 0, 0, 0, 0, 0⟩

/-- Pointwise sum of counters. -/
def Stats.add (a b : Stats) : Stats :=
  { workouts_completed := a.workouts_completed + b.workouts_completed
    workouts_skipped := a.workouts_skipped + b.workouts_skipped
    exercises_completed := a.exercises_completed + b.exercises_completed
    exercises_skipped := a.exercises_skipped + b.exercises_skipped
    sets_completed := a.sets_completed + b.sets_completed
    sets_skipped := a.sets_skipped + b.sets_skipped }

/-- The accumulating collections of `generate_workouts_with_data`:
the `workouts` list, the `instances` and `sets` maps (kept as
insertion-ordered key/record pairs) and the stats counters. -/
structure GenState where
  workouts : List Workout
  instances : List (String × ExerciseInstance)
  sets : List (String × SetRec)
  stats : Stats

/-- The weekday classification block of the day loop: id, type, split,
name (carrying the week counter) and protocol id for a strength or cardio
day; `none` on Sat/Sun (the `continue` branch). -/
structure DayHeader where
  workout_id : String
  wtype : WType
  splitDay : String
  name : String
  protocolId : String
deriving DecidableEq

/-- Classify a calendar day: MWF strength (variants A/B/C), T/Th cardio
(variants A/B), weekend rest. -/
def workoutHeader (week_num : Int) (cur : Date3) (phase_protocol : String) : Option DayHeader :=
  let day_of_week := weekdayOf cur
  let date_str := dateStr8 cur
  if day_of_week = 0 ∨ day_of_week = 2 ∨ day_of_week = 4 then
    some { workout_id := "bobby_" ++ date_str ++ "_strength", wtype := WType.strength,
           splitDay := "full_body",
           name := "Week " ++ toString week_num ++ " Full Body " ++
             (if day_of_week = 0 then "A" else if day_of_week = 2 then "B" else "C"),
           protocolId := phase_protocol }
  else if day_of_week = 1 ∨ day_of_week = 3 then
    some { workout_id := "bobby_" ++ date_str ++ "_cardio", wtype := WType.cardio,
           splitDay := "not_applicable",
           name := "Week " ++ toString week_num ++ " Cardio " ++
             (if day_of_week = 1 then "A" else "B"),
           protocolId := "cardio_30min_steady" }
  else none

/-- The per-exercise body of the day loop: build the instance record, its
set records (with actual performance for past completed instances) and the
stat increments for this exercise. -/
def genExercise (pyhash : String → Int) (rng : Int → PyGen) (cur : Date3) (week_num : Int)
    (phase : Phase) (header : DayHeader) (is_past : Bool) (p : Nat × String) :
    ExerciseInstance × List (String × SetRec) × Stats :=
  let ex_idx := p.1
  let exercise_id := p.2
  let instance_id := header.workout_id ++ "_ex" ++ toString ex_idx
  let exercise_skipped := is_past && should_skip_exercise pyhash rng cur ex_idx
  let instance_status :=
    if exercise_skipped then Status.skipped
    else if is_past then Status.completed else Status.scheduled
  let statsI : Stats :=
    if exercise_skipped then { Stats.zero with exercises_skipped := 1 }
    else if is_past then { Stats.zero with exercises_completed := 1 }
    else Stats.zero
  let ppi : Protocol × String × ℚ :=
    if header.wtype = WType.cardio then
      ({ reps := [1], intensity := 50/100, rest := 0 }, "cardio_30min_steady", 50/100)
    else
      ((PROTOCOLS.lookup header.protocolId).getD
          { reps := [5, 5, 5], intensity := 75/100, rest := 180 },
        header.protocolId, get_intensity_for_week week_num phase)
  let protocol := ppi.1
  let protocol_id := ppi.2.1
  let phase_intensity := ppi.2.2
  let target_weight := pyRound1 ((get_1rm_for_date exercise_id (toOrdinal cur) : ℚ) * phase_intensity)
  let setEntries : List (String × SetRec) := protocol.reps.enum.map (fun sp =>
    let set_num := sp.1
    let target_reps := sp.2
    let set_id := instance_id ++ "_s" ++ toString (set_num + 1)
    let asr : Option ℚ × Option Int × Status :=
      if is_past = true ∧ instance_status = Status.completed then
        generate_actual_performance_seeded pyhash rng target_weight target_reps cur
          (ex_idx * 10 + set_num)
      else if is_past = true ∧ instance_status = Status.skipped then
        (none, none, Status.skipped)
      else (none, none, Status.scheduled)
    (set_id,
      { id := set_id, exerciseInstanceId := instance_id, setNumber := set_num + 1,
        targetWeight := if header.wtype = WType.strength then some target_weight else none,
        targetReps := target_reps, actualWeight := asr.1, actualReps := asr.2.1,
        completion := asr.2.2,
        recordedDate := if asr.2.2 = Status.completed then
            some (isoDate cur ++ "T" ++ toString (10 + ex_idx) ++ ":" ++
              toString (30 + set_num * 3) ++ ":00Z")
          else none }))
  let set_ids := setEntries.map (fun e => e.1)
  let statsS : Stats :=
    { Stats.zero with
      sets_completed := (setEntries.filter (fun e => decide (e.2.completion = Status.completed))).length
      sets_skipped := (setEntries.filter (fun e => decide (e.2.completion = Status.skipped))).length }
  ({ id := instance_id, exerciseId := exercise_id, workoutId := header.workout_id,
     protocolVariantId := protocol_id, setIds := set_ids, status := instance_status,
     orderIndex := ex_idx },
   setEntries, Stats.add statsI statsS)

/-- The records one strength/cardio day contributes: the workout record,
the new instance and set entries, and the stat increments. -/
def dayRecords (today : Nat) (pyhash : String → Int) (rng : Int → PyGen) (quarter_id : String)
    (week_num : Int) (cur : Date3) (header : DayHeader) :
    Workout × List (String × ExerciseInstance) × List (String × SetRec) × Stats :=
  let is_past := decide (toOrdinal cur < today)
  let phase := (get_phase_for_week week_num).2
  let prog_id := "prog_bobby_" ++ quarter_id ++ "_" ++ phase.name.toLower
  let workout_skipped := is_past && should_skip_workout pyhash rng cur
  let workout_status :=
    if workout_skipped then Status.skipped
    else if is_past then Status.completed else Status.scheduled
  let statsW : Stats :=
    if workout_skipped then { Stats.zero with workouts_skipped := 1 }
    else if is_past then { Stats.zero with workouts_completed := 1 }
    else Stats.zero
  let exercise_ids := select_exercises_for_workout cur header.wtype
  let exResults :=
    if workout_skipped then []
    else exercise_ids.enum.map (genExercise pyhash rng cur week_num phase header is_past)
  let instancesNew := exResults.map (fun r => (r.1.id, r.1))
  let setsNew := (exResults.map (fun r => r.2.1)).flatten
  let statsE := (exResults.map (fun r => r.2.2)).foldl Stats.add Stats.zero
  ({ id := header.workout_id, programId := prog_id, name := header.name,
     scheduledDate := isoDate cur ++ "T10:00:00Z", wtype := header.wtype,
     splitDay := header.splitDay, status := workout_status,
     completedDate := if workout_status = Status.completed then
         some (isoDate cur ++ "T11:30:00Z") else none,
     exerciseIds := if workout_skipped then [] else exercise_ids,
     protocolVariantIds := exResults.map (fun r => (toString r.1.orderIndex, r.1.protocolVariantId)) },
   instancesNew, setsNew, Stats.add statsW statsE)

/-- One iteration of the day loop: Sat/Sun contribute nothing, other days
contribute their records. -/
def processDay (today : Nat) (pyhash : String → Int) (rng : Int → PyGen) (quarter_id : String)
    (week_num : Int) (cur : Date3) :
    Option (Workout × List (String × ExerciseInstance) × List (String × SetRec) × Stats) :=
  (workoutHeader week_num cur (get_phase_for_week week_num).2.protocol).map
    (dayRecords today pyhash rng quarter_id week_num cur)

/-- The `while current_date <= end_date` day loop of one quarter: process
the day, append its records, advance one day, and increment the week
counter when the day is a Sunday.  The fuel is one unit per remaining
calendar day, so it never runs out before the guard stops the loop. -/
def walkDays (today : Nat) (pyhash : String → Int) (rng : Int → PyGen) (quarter_id : String)
    (endO : Nat) : Nat → Date3 → Int → GenState → GenState
  | 0, _, _, st => st
  | fuel + 1, cur, week_num, st =>
    if toOrdinal cur ≤ endO then
      let st' :=
        match processDay today pyhash rng quarter_id week_num cur with
        | none => st
        | some (w, insts, sts, dl) =>
          { workouts := st.workouts ++ [w], instances := st.instances ++ insts,
            sets := st.sets ++ sts, stats := Stats.add st.stats dl }
      walkDays today pyhash rng quarter_id endO fuel (nextDay cur)
        (if weekdayOf cur = 6 then week_num + 1 else week_num) st'
    else st

/-- One quarter of `generate_workouts_with_data`: start at the first Monday
on or after the quarter start, with the week counter at 1. -/
def walkQuarter (today : Nat) (pyhash : String → Int) (rng : Int → PyGen)
    (st : GenState) (q : Quarter) : GenState :=
  let quarter_id := (q.name.toLower).replace " " "_"
  let endO := toOrdinal q.qend
  let cur := advanceToMonday 7 q.qstart
  walkDays today pyhash rng quarter_id endO (endO + 1 - toOrdinal cur) cur 1 st

/-- `generate_workouts_with_data`: fold the day loop over the five
quarters, accumulating all collections. -/
def generate_workouts_with_data (today : Nat) (pyhash : String → Int) (rng : Int → PyGen) :
    GenState :=
  QUARTERS.foldl (walkQuarter today pyhash rng)
    { workouts := [], instances := [], sets := [], stats := Stats.zero }

/-- The observable day-schedule projection of a workout record:
scheduled date, name (which carries the week number) and type. -/
def projW (w : Workout) : String × String × WType := (w.scheduledDate, w.name, w.wtype)

/-- The schedule (projected workout records) the day loop emits, defined by
the same recursion as `walkDays`. -/
def walkHeaders (endO : Nat) : Nat → Date3 → Int → List (String × String × WType)
  | 0, _, _ => []
  | fuel + 1, cur, week_num =>
    if toOrdinal cur ≤ endO then
      (match workoutHeader week_num cur (get_phase_for_week week_num).2.protocol with
       | none => []
       | some header => [(isoDate cur ++ "T10:00:00Z", header.name, header.wtype)]) ++
      walkHeaders endO fuel (nextDay cur)
        (if weekdayOf cur = 6 then week_num + 1 else week_num)
    else []

/-- The schedule one quarter emits. -/
def quarterSchedule (q : Quarter) : List (String × String × WType) :=
  let endO := toOrdinal q.qend
  let cur := advanceToMonday 7 q.qstart
  walkHeaders endO (endO + 1 - toOrdinal cur) cur 1

/-- Number of Sundays among the `k` calendar days starting at ordinal `m0`. -/
def sundaysIn (m0 k : Nat) : Nat :=
  ((List.range k).filter (fun j => (m0 + j + 6) % 7 == 6)).length

/-- The schedule claim C2 describes, stated independently of the loop:
for every calendar day from the first Monday on or after the quarter start
through the quarter end, a strength workout on Mon/Wed/Fri and a cardio
workout on Tue/Thu (weekends rest), where the week number of a day is one
more than the number of Sundays that have passed since that first Monday. -/
def specSchedule (q : Quarter) : List (String × String × WType) :=
  let m0 := advanceToMonday 7 q.qstart
  let m0o := toOrdinal m0
  let endO := toOrdinal q.qend
  (List.range (endO + 1 - m0o)).filterMap (fun k =>
    let d := nextDay^[k] m0
    let wk : Int := 1 + (sundaysIn m0o k : Int)
    match weekdayOf d with
    | 0 => some (isoDate d ++ "T10:00:00Z", "Week " ++ toString wk ++ " Full Body A",
        WType.strength)
    | 1 => some (isoDate d ++ "T10:00:00Z", "Week " ++ toString wk ++ " Cardio A",
        WType.cardio)
    | 2 => some (isoDate d ++ "T10:00:00Z", "Week " ++ toString wk ++ " Full Body B",
        WType.strength)
    | 3 => some (isoDate d ++ "T10:00:00Z", "Week " ++ toString wk ++ " Cardio B",
        WType.cardio)
    | 4 => some (isoDate d ++ "T10:00:00Z", "Week " ++ toString wk ++ " Full Body C",
        WType.strength)
    | _ => none)

/-- The referential integrity of a generated state: every set references an
existing instance, every instance references an existing workout. -/
def RefIntegrity (st : GenState) : Prop :=
  (∀ kv ∈ st.sets, ∃ iv ∈ st.instances, iv.2.id = kv.2.exerciseInstanceId) ∧
  (∀ iv ∈ st.instances, ∃ w ∈ st.workouts, w.id = iv.2.workoutId)

/-- Executable form of `RefIntegrity`. -/
def refIntegrityCheck (st : GenState) : Bool :=
  (st.sets.all (fun kv =>
    st.instances.any (fun iv => decide (iv.2.id = kv.2.exerciseInstanceId)))) &&
  (st.instances.all (fun iv => st.workouts.any (fun w => decide (w.id = iv.2.workoutId))))

/-- Python's `str.startswith`, as a character-list prefix test. -/
def pyStartsWith (s pat : String) : Bool := pat.data.isPrefixOf s.data

/-- The merge the script applies to the five keyed/listed collections:
drop every existing record whose key starts with the reserved id pattern,
then append (`dict.update` / `list.extend`) the freshly generated records. -/
def stripAndMerge {α : Type} (key : α → String) (pat : String)
    (existing new_records : List α) : List α :=
  existing.filter (fun x => !(pyStartsWith (key x) pat)) ++ new_records

/-- Python `dict[k] = v` on an insertion-ordered map: replace in place if
the key exists, else append. -/
def dictInsert {α : Type} (m : List (String × α)) (k : String) (v : α) : List (String × α) :=
  if m.any (fun kv => kv.1 == k) then
    m.map (fun kv => if kv.1 == k then (k, v) else kv)
  else m ++ [(k, v)]

/-- The merge the script applies to the targets collection: a per-id upsert
of each generated record, with no prefix-based removal. -/
def merge_targets {α : Type} (existing new_records : List (String × α)) :
    List (String × α) :=
  new_records.foldl (fun acc kv => dictInsert acc kv.1 kv.2) existing

/-- One entry of a target's `targetHistory`. -/
structure TargetHistoryEntry where
  date : String
  target : Int
  calibrationSource : String
deriving DecidableEq

/-- A generated 1RM target record. -/
structure Target where
  id : String
  memberId : String
  exerciseId : String
  currentTarget : ℚ
  targetHistory : List TargetHistoryEntry
  lastUpdated : String
  targetType : String
deriving DecidableEq

/-- `generate_targets`: one target record per exercise of the 1RM table,
with its quarterly history. -/
def generate_targets : List (String × Target) :=
  ONE_RM_PROGRESSION.map (fun ev =>
    let exercise_id := ev.1
    let values := ev.2
    let target_id := "bobby-" ++ exercise_id
    let history := QUARTERS.enum.filterMap (fun iq =>
      if iq.1 < values.length then
        some ({ date := isoDate iq.2.qstart ++ "T00:00:00Z", target := values.getD iq.1 0,
                calibrationSource := "quarterly_test" } : TargetHistoryEntry)
      else none)
    (target_id,
      { id := target_id, memberId := "bobby", exerciseId := exercise_id,
        currentTarget := (values.getLast! : ℚ), targetHistory := history,
        lastUpdated := "2025-10-31T00:00:00Z", targetType := "max" }))

/-- A pre-existing target record whose id carries the generator's reserved
id pattern but which the current table no longer regenerates. -/
def legacyTarget : Target :=
  { id := "bobby-legacy_exercise", memberId := "bobby", exerciseId := "legacy_exercise",
    currentTarget := 0, targetHistory := [], lastUpdated := "2024-01-01T00:00:00Z",
    targetType := "max" }

/-- The phase resolver lands in Accumulation on weeks 1-4. -/
lemma get_phase_for_week_acc (w : Int) (h1 : 1 ≤ w) (h2 : w ≤ 4) :
    get_phase_for_week w = (0, phaseAccumulation) := by
  have hc : (phaseAccumulation.weekStart ≤ w ∧ w ≤ phaseAccumulation.weekEnd) := ⟨h1, h2⟩
  simp only [get_phase_for_week, PHASES, List.enum, List.enumFrom, List.find?,
    decide_eq_true hc]

/-- The phase resolver lands in Intensification on weeks 5-8. -/
lemma get_phase_for_week_int (w : Int) (h1 : 5 ≤ w) (h2 : w ≤ 8) :
    get_phase_for_week w = (1, phaseIntensification) := by
  have h0 : ¬ (phaseAccumulation.weekStart ≤ w ∧ w ≤ phaseAccumulation.weekEnd) := by
    show ¬ ((1 : Int) ≤ w ∧ w ≤ 4); omega
  have hc : (phaseIntensification.weekStart ≤ w ∧ w ≤ phaseIntensification.weekEnd) := ⟨h1, h2⟩
  simp only [get_phase_for_week, PHASES, List.enum, List.enumFrom, List.find?,
    decide_eq_false h0, decide_eq_true hc]

/-- The phase resolver lands in Realization on weeks 9-12. -/
lemma get_phase_for_week_real (w : Int) (h1 : 9 ≤ w) (h2 : w ≤ 12) :
    get_phase_for_week w = (2, phaseRealization) := by
  have h0 : ¬ (phaseAccumulation.weekStart ≤ w ∧ w ≤ phaseAccumulation.weekEnd) := by
    show ¬ ((1 : Int) ≤ w ∧ w ≤ 4); omega
  have h1' : ¬ (phaseIntensification.weekStart ≤ w ∧ w ≤ phaseIntensification.weekEnd) := by
    show ¬ ((5 : Int) ≤ w ∧ w ≤ 8); omega
  have hc : (phaseRealization.weekStart ≤ w ∧ w ≤ phaseRealization.weekEnd) := ⟨h1, h2⟩
  simp only [get_phase_for_week, PHASES, List.enum, List.enumFrom, List.find?,
    decide_eq_false h0, decide_eq_false h1', decide_eq_true hc]

/-- The phase resolver falls through to the last phase beyond week 12. -/
lemma get_phase_for_week_fallback (w : Int) (hw : 12 < w) :
    get_phase_for_week w = (2, phaseRealization) := by
  have h0 : ¬ (phaseAccumulation.weekStart ≤ w ∧ w ≤ phaseAccumulation.weekEnd) := by
    show ¬ ((1 : Int) ≤ w ∧ w ≤ 4); omega
  have h1 : ¬ (phaseIntensification.weekStart ≤ w ∧ w ≤ phaseIntensification.weekEnd) := by
    show ¬ ((5 : Int) ≤ w ∧ w ≤ 8); omega
  have h2 : ¬ (phaseRealization.weekStart ≤ w ∧ w ≤ phaseRealization.weekEnd) := by
    show ¬ ((9 : Int) ≤ w ∧ w ≤ 12); omega
  simp only [get_phase_for_week, PHASES, List.enum, List.enumFrom, List.find?,
    decide_eq_false h0, decide_eq_false h1, decide_eq_false h2]

/-- On weeks 1-12 the three phase ranges cover the week uniquely. -/
lemma phase_partition_at (w : Int) (h1 : 1 ≤ w) (h2 : w ≤ 12) :
    ∃ p ∈ PHASES, (p.weekStart ≤ w ∧ w ≤ p.weekEnd) ∧
      ∀ q ∈ PHASES, (q.weekStart ≤ w ∧ w ≤ q.weekEnd) → q = p := by
  rcases le_or_lt w 4 with hA | hA
  · refine ⟨phaseAccumulation, by simp [PHASES], ⟨h1, hA⟩, ?_⟩
    intro q hq hr
    simp only [PHASES, List.mem_cons, List.not_mem_nil, or_false] at hq
    rcases hq with rfl | rfl | rfl
    · rfl
    · exact absurd hr (by show ¬ ((5 : Int) ≤ w ∧ w ≤ 8); omega)
    · exact absurd hr (by show ¬ ((9 : Int) ≤ w ∧ w ≤ 12); omega)
  rcases le_or_lt w 8 with hB | hB
  · refine ⟨phaseIntensification, by simp [PHASES], ⟨hA, hB⟩, ?_⟩
    intro q hq hr
    simp only [PHASES, List.mem_cons, List.not_mem_nil, or_false] at hq
    rcases hq with rfl | rfl | rfl
    · exact absurd hr (by show ¬ ((1 : Int) ≤ w ∧ w ≤ 4); omega)
    · rfl
    · exact absurd hr (by show ¬ ((9 : Int) ≤ w ∧ w ≤ 12); omega)
  · refine ⟨phaseRealization, by simp [PHASES], ⟨hB, h2⟩, ?_⟩
    intro q hq hr
    simp only [PHASES, List.mem_cons, List.not_mem_nil, or_false] at hq
    rcases hq with rfl | rfl | rfl
    · exact absurd hr (by show ¬ ((1 : Int) ≤ w ∧ w ≤ 4); omega)
    · exact absurd hr (by show ¬ ((5 : Int) ≤ w ∧ w ≤ 8); omega)
    · rfl

/-- C4: for every week 1 ≤ w ≤ 12 the resolver returns a phase whose range
contains w, that phase is the unique member of `PHASES` containing w (the
three ranges partition 1-12 with no gap or overlap), and every week w > 12
resolves to the last phase, Realization; the resolver is total. -/
theorem c4_phase_partition :
    (∀ w : Int, 1 ≤ w → w ≤ 12 →
      ((get_phase_for_week w).2.weekStart ≤ w ∧ w ≤ (get_phase_for_week w).2.weekEnd) ∧
      (∃ p ∈ PHASES, (p.weekStart ≤ w ∧ w ≤ p.weekEnd) ∧
        ∀ q ∈ PHASES, (q.weekStart ≤ w ∧ w ≤ q.weekEnd) → q = p)) ∧
    (∀ w : Int, 12 < w → get_phase_for_week w = (2, phaseRealization)) ∧
    phaseRealization.name = "Realization" := by
  refine ⟨?_, get_phase_for_week_fallback, rfl⟩
  intro w h1 h2
  refine ⟨?_, phase_partition_at w h1 h2⟩
  rcases le_or_lt w 4 with hA | hA
  · rw [get_phase_for_week_acc w h1 hA]; exact ⟨h1, hA⟩
  rcases le_or_lt w 8 with hB | hB
  · rw [get_phase_for_week_int w hA hB]; exact ⟨hA, hB⟩
  · rw [get_phase_for_week_real w hB h2]; exact ⟨hB, h2⟩

/-- Closed witness for `c4_phase_partition` at week 6. -/
theorem c4_phase_partition_witness :
    ((get_phase_for_week 6).2.weekStart ≤ 6 ∧ (6 : Int) ≤ (get_phase_for_week 6).2.weekEnd) ∧
    (∃ p ∈ PHASES, (p.weekStart ≤ 6 ∧ (6 : Int) ≤ p.weekEnd) ∧
      ∀ q ∈ PHASES, (q.weekStart ≤ 6 ∧ (6 : Int) ≤ q.weekEnd) → q = p) :=
  c4_phase_partition.1 6 (by decide) (by decide)

/-- C5: for each phase in the table, the interpolated intensity at the
phase's first week equals its start intensity and at its last week equals
its end intensity; and for any phase whose week range is a single week
(`week_start = week_end`) the function returns the start intensity at every
week (the division is guarded, so no division by zero occurs). -/
theorem c5_intensity_endpoints :
    (∀ p ∈ PHASES,
      get_intensity_for_week p.weekStart p = p.intensityStart ∧
      get_intensity_for_week p.weekEnd p = p.intensityEnd) ∧
    (∀ p : Phase, p.weekStart = p.weekEnd →
      ∀ w : Int, get_intensity_for_week w p = p.intensityStart) := by
  constructor
  · intro p hp
    fin_cases hp <;>
      constructor <;>
        norm_num [get_intensity_for_week, phaseAccumulation, phaseIntensification,
          phaseRealization, Int.max_def]
  · intro p hp w
    simp only [get_intensity_for_week, hp]
    rw [if_neg (by omega)]
    ring

/-- Closed witness for `c5_intensity_endpoints` at the Accumulation phase
and at a concrete single-week phase. -/
theorem c5_intensity_endpoints_witness :
    (get_intensity_for_week phaseAccumulation.weekStart phaseAccumulation =
        phaseAccumulation.intensityStart ∧
      get_intensity_for_week phaseAccumulation.weekEnd phaseAccumulation =
        phaseAccumulation.intensityEnd) ∧
    get_intensity_for_week 7
      { name := "Solo", weekStart := 7, weekEnd := 7, intensityStart := 65/100,
        intensityEnd := 95/100, protocol := "strength_3x5_moderate", focus := "peak",
        rationale := "single week" } = 65/100 :=
  ⟨c5_intensity_endpoints.1 phaseAccumulation (by simp [PHASES]),
    c5_intensity_endpoints.2
      { name := "Solo", weekStart := 7, weekEnd := 7, intensityStart := 65/100,
        intensityEnd := 95/100, protocol := "strength_3x5_moderate", focus := "peak",
        rationale := "single week" } rfl 7⟩

/-- C9: over weeks 1 through 12, resolving the phase and interpolating gives
a non-decreasing intensity, and the intensity is continuous across phase
boundaries: weeks 4 and 5 both give 0.70, weeks 8 and 9 both give 0.80. -/
theorem c9_intensity_monotone :
    (∀ w : Int, 1 ≤ w → w ≤ 11 → intensityForWeek w ≤ intensityForWeek (w + 1)) ∧
    intensityForWeek 4 = 70/100 ∧ intensityForWeek 5 = 70/100 ∧
    intensityForWeek 8 = 80/100 ∧ intensityForWeek 9 = 80/100 := by
  have hval : ∀ w : Int, 1 ≤ w → w ≤ 12 →
      intensityForWeek w =
        get_intensity_for_week w
          (if w ≤ 4 then phaseAccumulation else
            if w ≤ 8 then phaseIntensification else phaseRealization) := by
    intro w h1 h2
    unfold intensityForWeek
    rcases le_or_lt w 4 with hA | hA
    · rw [get_phase_for_week_acc w h1 hA, if_pos hA]
    rcases le_or_lt w 8 with hB | hB
    · rw [get_phase_for_week_int w hA hB, if_neg (by omega), if_pos hB]
    · rw [get_phase_for_week_real w hB h2, if_neg (by omega), if_neg (by omega)]
  refine ⟨?_, ?_, ?_, ?_, ?_⟩
  · intro w h1 h2
    rw [hval w h1 (by omega), hval (w + 1) (by omega) (by omega)]
    interval_cases w <;>
      norm_num [get_intensity_for_week, phaseAccumulation, phaseIntensification,
        phaseRealization, Int.max_def]
  all_goals
    rw [hval _ (by omega) (by omega)]
  all_goals
    norm_num [get_intensity_for_week, phaseAccumulation, phaseIntensification,
      phaseRealization, Int.max_def]

/-- Closed witness for `c9_intensity_monotone` at week 3. -/
theorem c9_intensity_monotone_witness :
    intensityForWeek 3 ≤ intensityForWeek 4 :=
  c9_intensity_monotone.1 3 (by decide) (by decide)

/-- C6 (amended): for any seeded generator draws satisfying the `randint`
range contract and any target with at least one rep, the outcome decides
the returned triple as described — with the `struggled` deduction drawn
from `1..max(1, min(2, target-1))` — and the status is `completed` exactly
when the outcome is not `skipped`. -/
theorem c6_outcome_shapes (gen : PyGen) (tw : ℚ) (tr : Int) (htr : 1 ≤ tr)
    (hg : RandintSpec gen) :
    PerfSpecAmended gen tw tr ∧
    ((generate_actual_performance gen tw tr).2.2 = Status.completed ↔
      gen.choicesOutcome ≠ Outcome.skipped) := by
  cases hco : gen.choicesOutcome with
  | hit =>
    refine ⟨?_, ?_⟩ <;> simp [PerfSpecAmended, generate_actual_performance, hco]
  | exceeded =>
    constructor
    · simp only [PerfSpecAmended, hco]
      exact ⟨gen.randint 1 3, (hg 1 3 (by omega)).1, (hg 1 3 (by omega)).2,
        by simp [generate_actual_performance, hco]⟩
    · simp [generate_actual_performance, hco]
  | struggled =>
    have hmf : (1 : Int) ≤ max 1 (min 2 (tr - 1)) := le_max_left _ _
    constructor
    · simp only [PerfSpecAmended, hco]
      refine ⟨gen.randint 1 (max 1 (min 2 (tr - 1))),
        (hg 1 _ hmf).1, (hg 1 _ hmf).2, ?_⟩
      simp only [generate_actual_performance, hco]
      rw [if_pos (by omega)]
    · simp [generate_actual_performance, hco]
  | weight_drop =>
    refine ⟨?_, ?_⟩ <;> simp [PerfSpecAmended, generate_actual_performance, hco]
  | skipped =>
    refine ⟨?_, ?_⟩ <;> simp [PerfSpecAmended, generate_actual_performance, hco]

/-- Closed witness for `c6_outcome_shapes` with a concrete generator. -/
theorem c6_outcome_shapes_witness :
    PerfSpecAmended genHitLow 100 5 ∧
    ((generate_actual_performance genHitLow 100 5).2.2 = Status.completed ↔
      genHitLow.choicesOutcome ≠ Outcome.skipped) :=
  c6_outcome_shapes genHitLow 100 5 (by omega) (fun a b h => ⟨le_refl a, h⟩)

/-- C6 counterexample: at `target_reps = 1` (which the generator reaches on
cardio sets) a `struggled` draw returns reps 1, but the claim's range
`1..min(2, target-1)` is empty, so the claim's `struggled` shape has no
witness: the claim as stated is false at this input. -/
theorem c6_struggled_counterexample :
    (1 : Int) ≤ 1 ∧ RandintSpec genStruggleLow ∧
    generate_actual_performance genStruggleLow 50 1 = (some 50, some 1, Status.completed) ∧
    ¬ PerfSpecClaim genStruggleLow 50 1 := by
  refine ⟨le_refl 1, fun a b h => ⟨le_refl a, h⟩, ?_, ?_⟩
  · norm_num [generate_actual_performance, genStruggleLow, Int.max_def, Int.min_def]
  · simp only [PerfSpecClaim, genStruggleLow]
    rintro ⟨k, hk1, hk2, -⟩
    omega

/-- C1: the seed the sampler derives is `hash(f"{date}_{num}")` for the
process's string hash, so the sampled outcome is NOT a function of the
`(target, date, ordinal)` key alone: two hash functions (two interpreter
processes with different hash salts) can give different seeds and different
outcomes at the same input.  This contradicts the claim's cross-run
determinism (and the script's own "deterministic seed" comments). -/
theorem c1_seed_hash_dependence :
    ∃ (h₁ h₂ : String → Int) (rng : Int → PyGen) (tw : ℚ) (tr : Int) (d : Date3) (n : Nat),
      seed_val h₁ (isoDate d) n ≠ seed_val h₂ (isoDate d) n ∧
      generate_actual_performance_seeded h₁ rng tw tr d n ≠
        generate_actual_performance_seeded h₂ rng tw tr d n := by
  refine ⟨fun _ => 0, fun _ => 1, fun s => if s = 0 then genHitLow else genSkipLow,
    100, 5, (2024, 10, 7), 0, ?_, ?_⟩
  · simp [seed_val]
  · simp [generate_actual_performance_seeded, seed_val, generate_actual_performance,
      genHitLow, genSkipLow]

/-- Ordinal of 2024-10-01 (= Python `date(2024,10,1).toordinal()`). -/
lemma ord_739160 : toOrdinal (2024, 10, 1) = 739160 := by decide

/-- Ordinal of 2024-12-31. -/
lemma ord_739251 : toOrdinal (2024, 12, 31) = 739251 := by decide

/-- Ordinal of 2025-01-01. -/
lemma ord_739252 : toOrdinal (2025, 1, 1) = 739252 := by decide

/-- Ordinal of 2025-03-31. -/
lemma ord_739341 : toOrdinal (2025, 3, 31) = 739341 := by decide

/-- Ordinal of 2025-04-01. -/
lemma ord_739342 : toOrdinal (2025, 4, 1) = 739342 := by decide

/-- Ordinal of 2025-06-30. -/
lemma ord_739432 : toOrdinal (2025, 6, 30) = 739432 := by decide

/-- Ordinal of 2025-07-01. -/
lemma ord_739433 : toOrdinal (2025, 7, 1) = 739433 := by decide

/-- Ordinal of 2025-09-30. -/
lemma ord_739524 : toOrdinal (2025, 9, 30) = 739524 := by decide

/-- Ordinal of 2025-10-01. -/
lemma ord_739525 : toOrdinal (2025, 10, 1) = 739525 := by decide

/-- Ordinal of 2025-12-31. -/
lemma ord_739616 : toOrdinal (2025, 12, 31) = 739616 := by decide

/-- Every row of the 1RM table has one value per quarter. -/
lemma one_rm_lookup_length (ex : String) (vs : List Int)
    (h : ONE_RM_PROGRESSION.lookup ex = some vs) : vs.length = 5 := by
  have hgen : ∀ l : List (String × List Int), (∀ kv ∈ l, (kv.2).length = 5) →
      l.lookup ex = some vs → vs.length = 5 := by
    intro l
    induction l with
    | nil => intro _ h'; simp at h'
    | cons kv rest ih =>
      obtain ⟨k, b⟩ := kv
      intro hall h'
      rw [List.lookup_cons] at h'
      cases hbe : ex == k with
      | true =>
        simp only [hbe] at h'
        injection h' with h'
        subst h'
        exact hall (k, b) (List.mem_cons_self _ _)
      | false =>
        simp only [hbe] at h'
        exact ih (fun kv hkv => hall kv (List.mem_cons_of_mem _ hkv)) h'
  exact hgen ONE_RM_PROGRESSION (by decide) h

/-- For a known exercise and a date inside quarter `i`, the lookup returns
the exercise's `i`-th progression value. -/
lemma get_1rm_known (ex : String) (vs : List Int) (i : Nat) (q : Quarter) (o : Nat)
    (h : ONE_RM_PROGRESSION.lookup ex = some vs) (hmem : (i, q) ∈ QUARTERS.enum)
    (hlo : toOrdinal q.qstart ≤ o) (hhi : o ≤ toOrdinal q.qend) :
    get_1rm_for_date ex o = vs.getD i 0 := by
  have hlen : vs.length = 5 := one_rm_lookup_length ex vs h
  simp only [get_1rm_for_date, h]
  simp only [QUARTERS, List.enum, List.enumFrom, List.mem_cons, List.not_mem_nil, or_false,
    Prod.mk.injEq] at hmem
  rcases hmem with ⟨rfl, rfl⟩ | ⟨rfl, rfl⟩ | ⟨rfl, rfl⟩ | ⟨rfl, rfl⟩ | ⟨rfl, rfl⟩ <;>
  · simp only [ord_739160, ord_739251, ord_739252, ord_739341, ord_739342, ord_739432,
      ord_739433, ord_739524, ord_739525, ord_739616] at hlo hhi
    simp only [QUARTERS, List.enum, List.enumFrom, rmQuarterScan, ord_739160, ord_739251,
      ord_739252, ord_739341, ord_739342, ord_739432, ord_739433, ord_739524, ord_739525,
      ord_739616]
    split_ifs <;> first | rfl | (exfalso; omega)

/-- For a known exercise and a date outside every quarter, the lookup falls
through to the exercise's last progression value. -/
lemma get_1rm_outside (ex : String) (vs : List Int) (o : Nat)
    (h : ONE_RM_PROGRESSION.lookup ex = some vs)
    (hout : ∀ q ∈ QUARTERS, ¬ (toOrdinal q.qstart ≤ o ∧ o ≤ toOrdinal q.qend)) :
    get_1rm_for_date ex o = vs.getLast! := by
  simp only [QUARTERS, List.forall_mem_cons, List.forall_mem_nil] at hout
  obtain ⟨h0, h1, h2, h3, h4, -⟩ := hout
  simp only [ord_739160, ord_739251, ord_739252, ord_739341, ord_739342, ord_739432,
    ord_739433, ord_739524, ord_739525, ord_739616] at h0 h1 h2 h3 h4
  simp only [get_1rm_for_date, h, QUARTERS, List.enum, List.enumFrom, rmQuarterScan,
    ord_739160, ord_739251, ord_739252, ord_739341, ord_739342, ord_739432, ord_739433,
    ord_739524, ord_739525, ord_739616]
  split_ifs <;> first | rfl | (exfalso; omega)

/-- The squat resolves a 1RM of 170 anywhere in Q4 2024. -/
lemma squat_1rm_q4_2024 (o : Nat) (h1 : toOrdinal (2024, 10, 1) ≤ o)
    (h2 : o ≤ toOrdinal (2024, 12, 31)) :
    get_1rm_for_date "barbell_back_squat" o = 170 :=
  get_1rm_known "barbell_back_squat" [170, 180, 215, 220, 195] 0
    { name := "Q4 2024", qstart := (2024, 10, 1), qend := (2024, 12, 31), bodyweight := 144 }
    o rfl (by simp [QUARTERS, List.enum, List.enumFrom]) h1 h2

/-- C3: any date in Q4 2024 resolves a squat 1RM of 170; an unknown
exercise id resolves the default 100; a known exercise id and a date inside
quarter `i` resolve the exercise's `i`-th progression value; a date outside
every quarter resolves the last progression value; and the week-1 strength
target weight for the squat in Q4 2024 is `round(170 * 0.60, 1) = 102.0`. -/
theorem c3_one_rm_lookup :
    (∀ o : Nat, toOrdinal (2024, 10, 1) ≤ o → o ≤ toOrdinal (2024, 12, 31) →
      get_1rm_for_date "barbell_back_squat" o = 170) ∧
    (∀ (ex : String) (o : Nat), ONE_RM_PROGRESSION.lookup ex = none →
      get_1rm_for_date ex o = 100) ∧
    (∀ (ex : String) (vs : List Int) (i : Nat) (q : Quarter) (o : Nat),
      ONE_RM_PROGRESSION.lookup ex = some vs → (i, q) ∈ QUARTERS.enum →
      toOrdinal q.qstart ≤ o → o ≤ toOrdinal q.qend →
      get_1rm_for_date ex o = vs.getD i 0) ∧
    (∀ (ex : String) (vs : List Int) (o : Nat),
      ONE_RM_PROGRESSION.lookup ex = some vs →
      (∀ q ∈ QUARTERS, ¬ (toOrdinal q.qstart ≤ o ∧ o ≤ toOrdinal q.qend)) →
      get_1rm_for_date ex o = vs.getLast!) ∧
    (∀ o : Nat, toOrdinal (2024, 10, 1) ≤ o → o ≤ toOrdinal (2024, 12, 31) →
      strengthTargetWeight "barbell_back_squat" o 1 (get_phase_for_week 1).2 = 102) := by
  refine ⟨squat_1rm_q4_2024, ?_, ?_, ?_, ?_⟩
  · intro ex o h
    simp only [get_1rm_for_date, h]
  · intro ex vs i q o h hmem hlo hhi
    exact get_1rm_known ex vs i q o h hmem hlo hhi
  · intro ex vs o h hout
    exact get_1rm_outside ex vs o h hout
  · intro o h1 h2
    rw [strengthTargetWeight, squat_1rm_q4_2024 o h1 h2,
      get_phase_for_week_acc 1 (by omega) (by omega)]
    norm_num [get_intensity_for_week, phaseAccumulation, Int.max_def, pyRound1, roundHalfEven]

/-- Closed witness for `c3_one_rm_lookup` at 2024-11-15. -/
theorem c3_one_rm_lookup_witness :
    get_1rm_for_date "barbell_back_squat" (toOrdinal (2024, 11, 15)) = 170 :=
  c3_one_rm_lookup.1 (toOrdinal (2024, 11, 15)) (by decide) (by decide)

/-- An instance generated for an exercise references the day's workout. -/
lemma genExercise_inst_workoutId (pyhash : String → Int) (rng : Int → PyGen) (cur : Date3)
    (week : Int) (phase : Phase) (header : DayHeader) (is_past : Bool) (p : Nat × String) :
    (genExercise pyhash rng cur week phase header is_past p).1.workoutId =
      header.workout_id := rfl

/-- Every set generated for an exercise references that exercise's instance. -/
lemma genExercise_sets_ref (pyhash : String → Int) (rng : Int → PyGen) (cur : Date3)
    (week : Int) (phase : Phase) (header : DayHeader) (is_past : Bool) (p : Nat × String) :
    ∀ kv ∈ (genExercise pyhash rng cur week phase header is_past p).2.1,
      kv.2.exerciseInstanceId = (genExercise pyhash rng cur week phase header is_past p).1.id := by
  intro kv hkv
  simp only [genExercise] at hkv
  rw [List.mem_map] at hkv
  obtain ⟨sp, -, rfl⟩ := hkv
  rfl

/-- The day's workout record carries the header's workout id. -/
lemma dayRecords_workout_id (today : Nat) (pyhash : String → Int) (rng : Int → PyGen)
    (qid : String) (week : Int) (cur : Date3) (header : DayHeader) :
    (dayRecords today pyhash rng qid week cur header).1.id = header.workout_id := rfl

/-- Every instance a day generates references that day's workout. -/
lemma dayRecords_insts_ref (today : Nat) (pyhash : String → Int) (rng : Int → PyGen)
    (qid : String) (week : Int) (cur : Date3) (header : DayHeader) :
    ∀ iv ∈ (dayRecords today pyhash rng qid week cur header).2.1,
      iv.2.workoutId = (dayRecords today pyhash rng qid week cur header).1.id := by
  intro iv hiv
  rw [dayRecords_workout_id]
  simp only [dayRecords] at hiv
  rw [List.mem_map] at hiv
  obtain ⟨r, hr, rfl⟩ := hiv
  split at hr
  · simp at hr
  · rw [List.mem_map] at hr
    obtain ⟨p, -, rfl⟩ := hr
    exact genExercise_inst_workoutId pyhash rng cur week _ header _ p

/-- Every set a day generates references one of that day's instances. -/
lemma dayRecords_sets_ref (today : Nat) (pyhash : String → Int) (rng : Int → PyGen)
    (qid : String) (week : Int) (cur : Date3) (header : DayHeader) :
    ∀ kv ∈ (dayRecords today pyhash rng qid week cur header).2.2.1,
      ∃ iv ∈ (dayRecords today pyhash rng qid week cur header).2.1,
        iv.2.id = kv.2.exerciseInstanceId := by
  intro kv hkv
  simp only [dayRecords] at hkv ⊢
  rw [List.mem_flatten] at hkv
  obtain ⟨l, hl, hkvl⟩ := hkv
  rw [List.mem_map] at hl
  obtain ⟨r, hr, rfl⟩ := hl
  refine ⟨(r.1.id, r.1), List.mem_map_of_mem _ hr, ?_⟩
  split at hr
  · simp at hr
  · rw [List.mem_map] at hr
    obtain ⟨p, -, rfl⟩ := hr
    exact (genExercise_sets_ref pyhash rng cur week _ header _ p kv hkvl).symm

/-- The day loop preserves referential integrity of the accumulated state. -/
lemma walkDays_ref (today : Nat) (pyhash : String → Int) (rng : Int → PyGen)
    (qid : String) (endO : Nat) :
    ∀ (fuel : Nat) (cur : Date3) (week : Int) (st : GenState), RefIntegrity st →
      RefIntegrity (walkDays today pyhash rng qid endO fuel cur week st) := by
  intro fuel
  induction fuel with
  | zero => intro cur week st hst; exact hst
  | succ n ih =>
    intro cur week st hst
    rw [walkDays]
    by_cases hg : toOrdinal cur ≤ endO
    · rw [if_pos hg]
      apply ih
      cases hh : workoutHeader week cur (get_phase_for_week week).2.protocol with
      | none => simpa only [processDay, hh, Option.map_none'] using hst
      | some header =>
        simp only [processDay, hh, Option.map_some']
        constructor
        · intro kv hkv
          rw [List.mem_append] at hkv
          rcases hkv with hkv | hkv
          · obtain ⟨iv, hiv, he⟩ := hst.1 kv hkv
            exact ⟨iv, List.mem_append_left _ hiv, he⟩
          · obtain ⟨iv, hiv, he⟩ :=
              dayRecords_sets_ref today pyhash rng qid week cur header kv hkv
            exact ⟨iv, List.mem_append_right _ hiv, he⟩
        · intro iv hiv
          rw [List.mem_append] at hiv
          rcases hiv with hiv | hiv
          · obtain ⟨w, hw, he⟩ := hst.2 iv hiv
            exact ⟨w, List.mem_append_left _ hw, he⟩
          · refine ⟨(dayRecords today pyhash rng qid week cur header).1,
              List.mem_append_right _ (List.mem_singleton_self _), ?_⟩
            exact (dayRecords_insts_ref today pyhash rng qid week cur header iv hiv).symm
    · rw [if_neg hg]
      exact hst

/-- A quarter's walk preserves referential integrity. -/
lemma walkQuarter_ref (today : Nat) (pyhash : String → Int) (rng : Int → PyGen)
    (st : GenState) (q : Quarter) (hst : RefIntegrity st) :
    RefIntegrity (walkQuarter today pyhash rng st q) :=
  walkDays_ref today pyhash rng _ _ _ _ _ st hst

/-- `RefIntegrity` in its executable form. -/
lemma refIntegrityCheck_iff (st : GenState) :
    refIntegrityCheck st = true ↔ RefIntegrity st := by
  simp [refIntegrityCheck, RefIntegrity, List.all_eq_true, List.any_eq_true,
    decide_eq_true_eq, Bool.and_eq_true]

/-- C8: in the collections produced by one run of the generator — for any
current date, process hash function and generator draws — every set's
`exerciseInstanceId` names an instance of the generated instance
collection, and every instance's `workoutId` names a generated workout. -/
theorem c8_referential_integrity (today : Nat) (pyhash : String → Int) (rng : Int → PyGen) :
    refIntegrityCheck (generate_workouts_with_data today pyhash rng) = true := by
  rw [refIntegrityCheck_iff]
  have hfold : ∀ (qs : List Quarter) (st : GenState), RefIntegrity st →
      RefIntegrity (qs.foldl (walkQuarter today pyhash rng) st) := by
    intro qs
    induction qs with
    | nil => intro st hst; exact hst
    | cons q rest ih =>
      intro st hst
      exact ih _ (walkQuarter_ref today pyhash rng st q hst)
  refine hfold QUARTERS _ ⟨?_, ?_⟩ <;> intro x hx <;> exact absurd hx (List.not_mem_nil x)

/-- If the workout-level skip gate fires on a past day, the day's records
are: a `skipped` workout with an empty `exerciseIds` list, no instance
records and no set records. -/
lemma dayRecords_skipped (today : Nat) (pyhash : String → Int) (rng : Int → PyGen)
    (qid : String) (week : Int) (cur : Date3) (header : DayHeader)
    (hpast : toOrdinal cur < today)
    (hskip : should_skip_workout pyhash rng cur = true) :
    (dayRecords today pyhash rng qid week cur header).1.status = Status.skipped ∧
    (dayRecords today pyhash rng qid week cur header).1.exerciseIds = [] ∧
    (dayRecords today pyhash rng qid week cur header).2.1 = [] ∧
    (dayRecords today pyhash rng qid week cur header).2.2.1 = [] := by
  simp only [dayRecords, decide_eq_true hpast, hskip, Bool.and_self, if_true]
  simp

/-- C10: when the workout-level skip gate fires on a past strength or
cardio day, the day contributes a workout record with status `skipped` and
an empty `exerciseIds` list, and no exercise-instance records and no set
records at all; instance and set generation happen only on non-skipped
days. -/
theorem c10_skipped_day_empty (today : Nat) (pyhash : String → Int) (rng : Int → PyGen)
    (qid : String) (week : Int) (cur : Date3) (header : DayHeader)
    (hh : workoutHeader week cur (get_phase_for_week week).2.protocol = some header)
    (hpast : toOrdinal cur < today)
    (hskip : should_skip_workout pyhash rng cur = true) :
    ∃ w dl, processDay today pyhash rng qid week cur = some (w, [], [], dl) ∧
      w.status = Status.skipped ∧ w.exerciseIds = [] := by
  obtain ⟨hs, he, hi, hsets⟩ :=
    dayRecords_skipped today pyhash rng qid week cur header hpast hskip
  refine ⟨(dayRecords today pyhash rng qid week cur header).1,
    (dayRecords today pyhash rng qid week cur header).2.2.2, ?_, hs, he⟩
  simp only [processDay, hh, Option.map_some']
  rw [← hi, ← hsets]

/-- Closed witness for `c10_skipped_day_empty`: Monday 2024-10-07 with a
current date after it and a generator whose skip roll is under 10%. -/
theorem c10_skipped_day_empty_witness :
    ∃ w dl, processDay 739200 (fun _ => 0) (fun _ => genHitLow) "q4_2024" 1 (2024, 10, 7) =
      some (w, [], [], dl) ∧ w.status = Status.skipped ∧ w.exerciseIds = [] :=
  c10_skipped_day_empty 739200 (fun _ => 0) (fun _ => genHitLow) "q4_2024" 1 (2024, 10, 7)
    _ rfl (by decide) (by norm_num [should_skip_workout, genHitLow])

/-- A day's workout record projects to the header's schedule entry. -/
lemma dayRecords_proj (today : Nat) (pyhash : String → Int) (rng : Int → PyGen)
    (qid : String) (week : Int) (cur : Date3) (header : DayHeader) :
    projW (dayRecords today pyhash rng qid week cur header).1 =
      (isoDate cur ++ "T10:00:00Z", header.name, header.wtype) := rfl

/-- The day loop's workout records project exactly to the emitted schedule,
whatever the current date, hash function and generator draws. -/
lemma walkDays_workouts_proj (today : Nat) (pyhash : String → Int) (rng : Int → PyGen)
    (qid : String) (endO : Nat) :
    ∀ (fuel : Nat) (cur : Date3) (week : Int) (st : GenState),
      (walkDays today pyhash rng qid endO fuel cur week st).workouts.map projW =
        st.workouts.map projW ++ walkHeaders endO fuel cur week := by
  intro fuel
  induction fuel with
  | zero => intro cur week st; simp [walkDays, walkHeaders]
  | succ n ih =>
    intro cur week st
    rw [walkDays, walkHeaders]
    by_cases hg : toOrdinal cur ≤ endO
    · rw [if_pos hg, if_pos hg]
      cases hh : workoutHeader week cur (get_phase_for_week week).2.protocol with
      | none =>
        simp only [processDay, hh, Option.map_none']
        rw [ih]
        simp
      | some header =>
        simp only [processDay, hh, Option.map_some']
        rw [ih]
        simp [dayRecords_proj]
    · rw [if_neg hg, if_neg hg]
      simp

/-- A quarter's workout records project to the quarter's schedule. -/
lemma walkQuarter_workouts_proj (today : Nat) (pyhash : String → Int) (rng : Int → PyGen)
    (st : GenState) (q : Quarter) :
    (walkQuarter today pyhash rng st q).workouts.map projW =
      st.workouts.map projW ++ quarterSchedule q := by
  unfold walkQuarter quarterSchedule
  exact walkDays_workouts_proj today pyhash rng _ _ _ _ _ st

/-- The full run's workout records project to the five quarters' schedules
in order. -/
lemma run_workouts_proj (today : Nat) (pyhash : String → Int) (rng : Int → PyGen) :
    (generate_workouts_with_data today pyhash rng).workouts.map projW =
      (QUARTERS.map quarterSchedule).flatten := by
  have hfold : ∀ (qs : List Quarter) (st : GenState),
      (qs.foldl (walkQuarter today pyhash rng) st).workouts.map projW =
        st.workouts.map projW ++ (qs.map quarterSchedule).flatten := by
    intro qs
    induction qs with
    | nil => intro st; simp
    | cons q rest ih =>
      intro st
      rw [List.foldl_cons, ih, walkQuarter_workouts_proj]
      simp [List.append_assoc]
  unfold generate_workouts_with_data
  rw [hfold]
  simp

/-- C2 (amended): the generator's workout records are exactly one per
strength/cardio day from the first Monday on or after each quarter's start
through the quarter's end (weekends rest, Mon/Wed/Fri strength, Tue/Thu
cardio), with the week number — observable in the workout name — equal to
one plus the number of Sundays passed since that first Monday, i.e. the
week counter increments exactly on each Sunday. -/
theorem c2_walk_schedule (today : Nat) (pyhash : String → Int) (rng : Int → PyGen) :
    (generate_workouts_with_data today pyhash rng).workouts.map projW =
      (QUARTERS.map specSchedule).flatten := by
  rw [run_workouts_proj]
  have h : QUARTERS.map quarterSchedule = QUARTERS.map specSchedule := by decide
  rw [h]

set_option maxRecDepth 20000 in
/-- C2 counterexample: 2024-10-01 is a Tuesday inside quarter Q4 2024 — a
cardio day by the claimed classification — yet no generated workout is
scheduled on it: the walk starts at the first Monday (2024-10-07), not at
the quarter's start. -/
theorem c2_start_counterexample :
    weekdayOf (2024, 10, 1) = 1 ∧
    (∃ q ∈ QUARTERS, q.qstart = (2024, 10, 1) ∧
      toOrdinal q.qstart ≤ toOrdinal (2024, 10, 1) ∧
      toOrdinal (2024, 10, 1) ≤ toOrdinal q.qend) ∧
    ((generate_workouts_with_data 0 (fun _ => 0) (fun _ => genHitLow)).workouts.map
        (fun w => w.scheduledDate)).all
      (fun s => s != "2024-10-01T10:00:00Z") = true := by
  refine ⟨by decide,
    ⟨{ name := "Q4 2024", qstart := (2024, 10, 1), qend := (2024, 12, 31), bodyweight := 144 },
      by decide, rfl, by decide, by decide⟩, ?_⟩
  have hmm : ((generate_workouts_with_data 0 (fun _ => 0) (fun _ => genHitLow)).workouts.map
      (fun w => w.scheduledDate)) =
      ((generate_workouts_with_data 0 (fun _ => 0) (fun _ => genHitLow)).workouts.map
        projW).map Prod.fst := by
    rw [List.map_map]
    rfl
  rw [hmm, run_workouts_proj]
  decide

/-- C7 (amended): for the five collections merged by prefix-strip-then-
extend (plans, programs, workouts, instances, sets), the merge output has
exactly `N + (count of newly generated records)` records where `N` is the
number of existing records whose key does not carry the reserved pattern;
those `N` foreign records are preserved verbatim, none of the pattern-
matching originals survives, and nothing else appears.  (The targets
collection is merged differently — see the counterexample.) -/
theorem c7_merge_semantics {α : Type} (key : α → String) (pat : String)
    (existing new_records : List α)
    (hfresh : ∀ x ∈ existing, pyStartsWith (key x) pat = true → x ∉ new_records) :
    (stripAndMerge key pat existing new_records).length =
      (existing.filter (fun x => !(pyStartsWith (key x) pat))).length + new_records.length ∧
    (∀ x ∈ existing, pyStartsWith (key x) pat = false →
      x ∈ stripAndMerge key pat existing new_records) ∧
    (∀ x ∈ existing, pyStartsWith (key x) pat = true →
      x ∉ stripAndMerge key pat existing new_records) ∧
    (∀ x ∈ stripAndMerge key pat existing new_records,
      (x ∈ existing ∧ pyStartsWith (key x) pat = false) ∨ x ∈ new_records) := by
  refine ⟨List.length_append _ _, ?_, ?_, ?_⟩
  · intro x hx hkey
    exact List.mem_append_left _ (List.mem_filter.mpr ⟨hx, by simp [hkey]⟩)
  · intro x hx hkey hmem
    rcases List.mem_append.mp hmem with hf | hn
    · have hc := (List.mem_filter.mp hf).2
      simp [hkey] at hc
    · exact hfresh x hx hkey hn
  · intro x hx
    rcases List.mem_append.mp hx with hf | hn
    · obtain ⟨hmem, hcond⟩ := List.mem_filter.mp hf
      refine Or.inl ⟨hmem, ?_⟩
      simpa using hcond
    · exact Or.inr hn

/-- Closed witness for `c7_merge_semantics` on a tiny plans-style
collection. -/
theorem c7_merge_semantics_witness :
    (stripAndMerge Prod.fst "plan_bobby" [("plan_bobby_old", 1), ("plan_alice", 2)]
        [("plan_bobby_new", 3)]).length =
      ([("plan_bobby_old", 1), ("plan_alice", 2)].filter
        (fun x : String × Nat => !(pyStartsWith x.1 "plan_bobby"))).length + 1 ∧
    (∀ x ∈ [("plan_bobby_old", 1), ("plan_alice", 2)], pyStartsWith x.1 "plan_bobby" = false →
      x ∈ stripAndMerge Prod.fst "plan_bobby" [("plan_bobby_old", 1), ("plan_alice", 2)]
        [("plan_bobby_new", 3)]) ∧
    (∀ x ∈ [("plan_bobby_old", 1), ("plan_alice", 2)], pyStartsWith x.1 "plan_bobby" = true →
      x ∉ stripAndMerge Prod.fst "plan_bobby" [("plan_bobby_old", 1), ("plan_alice", 2)]
        [("plan_bobby_new", 3)]) ∧
    (∀ x ∈ stripAndMerge Prod.fst "plan_bobby" [("plan_bobby_old", 1), ("plan_alice", 2)]
        [("plan_bobby_new", 3)],
      (x ∈ [("plan_bobby_old", 1), ("plan_alice", 2)] ∧ pyStartsWith x.1 "plan_bobby" = false) ∨
      x ∈ [("plan_bobby_new", 3)]) :=
  c7_merge_semantics Prod.fst "plan_bobby" [("plan_bobby_old", 1), ("plan_alice", 2)]
    [("plan_bobby_new", 3)] (by decide)

/-- C7 counterexample: the targets collection is an output collection, but
its merge upserts by id with no prefix-strip, so an existing record whose
id carries the generator's reserved pattern (`bobby-*`) and is not among
the regenerated ids survives, and the output has `N + M + (new)` records
rather than `N + (new)`: with `N = 0`, `M = 1` the claimed count fails and
the original prefix-matching record is still present. -/
theorem c7_targets_counterexample :
    pyStartsWith "bobby-legacy_exercise" "bobby-" = true ∧
    (merge_targets [("bobby-legacy_exercise", legacyTarget)] generate_targets).length ≠
      0 + generate_targets.length ∧
    ("bobby-legacy_exercise", legacyTarget) ∈
      merge_targets [("bobby-legacy_exercise", legacyTarget)] generate_targets := by
  refine ⟨by decide, by decide, by decide⟩

end BobbyHistory
